import Mathlib

/-!
Verification of the Printer-API core against its specification.

The definitions below are shallow embeddings of the TypeScript source:

* `src/services/deliveryNumber.ts` — the delivery-number state machine
  (`generateDeliveryNumber`, `getNextLetter`, `shouldPrintLetterSeparator`,
  `getCurrentLetter`, `getCurrentFileNumber`);
* `src/services/printer.ts` — the mixed-color page grouping of
  `printPdfWithMixedColorInSequence`, and the separator phase plus the
  trailing-digit file-number extraction of `printJob`;
* `src/services/queue.ts` — the processing-loop iteration, backoff
  computation and error classification of `processQueue`, and `addToQueue`;
* `src/routes/print.ts` — the per-file enqueue loop of the POST /print route.

JavaScript numbers that only ever hold small non-negative integers are
modelled as `Nat`; 1-based page numbers from request payloads are modelled as
`Int` because the source subtracts 1 before range-filtering (so 0 maps to -1
and is dropped by the filter).  Mutable module-level state is threaded
explicitly.  The environment variable `DELIVERY_NUMBER_START` is the
`startLetter` parameter (default `'A'` in the source).
-/

/-- State of the delivery-number generator
(`deliveryState` in `deliveryNumber.ts`). -/
structure DeliveryNumberState where
  currentLetter : Char
  currentCount : Nat
  currentFileNumber : Nat
  totalFiles : Nat
  lastDate : String
deriving Repr, DecidableEq

/-- `getNextLetter` from `deliveryNumber.ts`: `'Z'` cycles back to `'A'`,
otherwise the next character code. -/
def getNextLetter (currentLetter : Char) : Char :=
  if currentLetter = 'Z' then 'A' else Char.ofNat (currentLetter.toNat + 1)

/-- The date-change reset block at the top of `generateDeliveryNumber`
(lines 51-57 of `deliveryNumber.ts`): if the current date differs from
`lastDate`, reset letter, count and file number and stamp the new date.
Note the source does NOT touch `totalFiles` here. -/
def resetIfDateChanged (startLetter : Char) (currentDate : String)
    (s : DeliveryNumberState) : DeliveryNumberState :=
  if currentDate ≠ s.lastDate then
    { s with currentLetter := startLetter, currentCount := 0,
             currentFileNumber := 0, lastDate := currentDate }
  else s

/-- `generateDeliveryNumber` from `deliveryNumber.ts`, with the ambient
date (`getCurrentDateString()`) and start letter passed explicitly.
Returns the formatted delivery number and the updated state. -/
def generateDeliveryNumber (startLetter : Char) (currentDate : String)
    (printerIndex : Nat) (s : DeliveryNumberState) :
    String × DeliveryNumberState :=
  let s1 := resetIfDateChanged startLetter currentDate s
  let s2 := { s1 with currentCount := s1.currentCount + 1,
                      totalFiles := s1.totalFiles + 1 }
  let fn := s2.currentFileNumber + 1
  let s3 := { s2 with currentFileNumber := if fn > 10 then 1 else fn }
  let s4 :=
    if s3.currentCount > 10 then
      { s3 with currentLetter := getNextLetter s3.currentLetter,
                currentCount := 1, currentFileNumber := 1 }
    else s3
  (String.mk [s4.currentLetter] ++ currentDate ++ toString printerIndex
     ++ toString s4.currentFileNumber, s4)

/-- `shouldPrintLetterSeparator` from `deliveryNumber.ts`. -/
def shouldPrintLetterSeparator (s : DeliveryNumberState) : Bool :=
  s.currentCount = 1 && s.totalFiles > 0 &&
    (s.totalFiles % 10 = 1 || s.totalFiles = 1)

/-- `getCurrentLetter` from `deliveryNumber.ts`. -/
def getCurrentLetter (s : DeliveryNumberState) : Char :=
  s.currentLetter

/-- `getCurrentFileNumber` from `deliveryNumber.ts`. -/
def getCurrentFileNumber (s : DeliveryNumberState) : Nat :=
  s.currentFileNumber

/-- The initial module state of `deliveryNumber.ts` (and the state produced
by `resetDeliveryState`): counters at 0, letter at the start letter, and
`lastDate` at the current date. -/
def freshState (startLetter : Char) (today : String) : DeliveryNumberState :=
  { currentLetter := startLetter, currentCount := 0, currentFileNumber := 0,
    totalFiles := 0, lastDate := today }

/-- State after `n` consecutive calls of `generateDeliveryNumber` on the
same date `d` with printer index `idx`, starting from `s`. -/
def stateAfter (startLetter : Char) (d : String) (idx : Nat)
    (s : DeliveryNumberState) : Nat → DeliveryNumberState
  | 0 => s
  | n + 1 => (generateDeliveryNumber startLetter d idx
      (stateAfter startLetter d idx s n)).2

/-- The delivery number returned by the `n`-th call (1-based) of
`generateDeliveryNumber` on date `d`, starting from `s`. -/
def nthDelivery (startLetter : Char) (d : String) (idx : Nat)
    (s : DeliveryNumberState) (n : Nat) : String :=
  (generateDeliveryNumber startLetter d idx
    (stateAfter startLetter d idx s (n - 1))).1

/-- The capital letter at 0-based alphabet position `k` (`'A'` is 0). -/
def letterOfIdx (k : Nat) : Char :=
  Char.ofNat ('A'.toNat + k)

/-- The delivery number the spec predicts for the call with 0-based call
index `m` (call `n = m + 1`), starting fresh from `'A'` on date `d`. -/
def expectedDelivery (d : String) (idx m : Nat) : String :=
  String.mk [letterOfIdx ((m / 10) % 26)] ++ d ++ toString idx
    ++ toString (m % 10 + 1)

/-- The state the spec predicts after `m + 1` calls starting fresh. -/
def expectedState (d : String) (m : Nat) : DeliveryNumberState :=
  { currentLetter := letterOfIdx ((m / 10) % 26),
    currentCount := m % 10 + 1, currentFileNumber := m % 10 + 1,
    totalFiles := m + 1, lastDate := d }

/-- One issuing step on a state whose two counters agree and whose date is
current: the counters advance together, wrapping at 10 with a letter
advance. -/
lemma generate_step (d : String) (idx : Nat) (l : Char) (c t : Nat)
    (hc : 1 ≤ c) (hc10 : c ≤ 10) :
    generateDeliveryNumber 'A' d idx ⟨l, c, c, t, d⟩ =
      if c = 10 then
        (String.mk [getNextLetter l] ++ d ++ toString idx ++ toString 1,
          ⟨getNextLetter l, 1, 1, t + 1, d⟩)
      else
        (String.mk [l] ++ d ++ toString idx ++ toString (c + 1),
          ⟨l, c + 1, c + 1, t + 1, d⟩) := by
  by_cases h : c = 10
  · subst h
    simp [generateDeliveryNumber, resetIfDateChanged]
  · have h1 : ¬ (c + 1 > 10) := by omega
    simp [generateDeliveryNumber, resetIfDateChanged, h, h1]

/-- The very first issuing step from the fresh state. -/
lemma generate_fresh (L : Char) (d : String) (idx : Nat) :
    generateDeliveryNumber L d idx (freshState L d) =
      (String.mk [L] ++ d ++ toString idx ++ toString 1, ⟨L, 1, 1, 1, d⟩) := by
  simp [generateDeliveryNumber, resetIfDateChanged, freshState]

lemma getNextLetter_letterOfIdx_lt : ∀ j : Fin 26,
    getNextLetter (letterOfIdx j.val) = letterOfIdx ((j.val + 1) % 26) := by
  decide

/-- Advancing the letter at alphabet position `q % 26` lands at position
`(q + 1) % 26`. -/
lemma getNextLetter_letterOfIdx (q : Nat) :
    getNextLetter (letterOfIdx (q % 26)) = letterOfIdx ((q + 1) % 26) := by
  have h1 : (q + 1) % 26 = (q % 26 + 1) % 26 := by omega
  have h2 := getNextLetter_letterOfIdx_lt ⟨q % 26, by omega⟩
  rw [h1]
  exact h2

/-- The closed form of the delivery-number machine: starting fresh from
`'A'` on date `d`, the call with 0-based index `m` returns the spec's
predicted string and leaves the spec's predicted state. -/
lemma generate_expected (d : String) (idx : Nat) : ∀ m : Nat,
    generateDeliveryNumber 'A' d idx
        (stateAfter 'A' d idx (freshState 'A' d) m)
      = (expectedDelivery d idx m, expectedState d m) := by
  intro m
  induction m with
  | zero =>
      rw [stateAfter, generate_fresh]
      have hA : letterOfIdx ((0 / 10) % 26) = 'A' := by decide
      simp [expectedDelivery, expectedState, hA]
  | succ m ih =>
      have hs : stateAfter 'A' d idx (freshState 'A' d) (m + 1)
          = expectedState d m := by
        rw [stateAfter, ih]
      rw [hs]
      have hc : 1 ≤ m % 10 + 1 := by omega
      have hc10 : m % 10 + 1 ≤ 10 := by omega
      rw [show expectedState d m
            = ⟨letterOfIdx ((m / 10) % 26), m % 10 + 1, m % 10 + 1,
                m + 1, d⟩ from rfl,
          generate_step d idx _ _ _ hc hc10]
      by_cases h : m % 10 = 9
      · have h1 : (m + 1) / 10 = m / 10 + 1 := by omega
        have h2 : (m + 1) % 10 = 0 := by omega
        simp [h, expectedDelivery, expectedState, h1, h2,
          getNextLetter_letterOfIdx]
      · have h1 : (m + 1) / 10 = m / 10 := by omega
        have h2 : (m + 1) % 10 = m % 10 + 1 := by omega
        have h3 : ¬ (m % 10 + 1 = 10) := by omega
        simp [expectedDelivery, expectedState, h1, h2, h3]

/-- Claim C1: starting from a fresh state with start letter `'A'`, the
`n`-th consecutive call (1-based) of `generateDeliveryNumber` on one fixed
date with a fixed printer index returns the delivery number whose letter
has alphabet position `((n-1) / 10) % 26` and whose file number is
`(n-1) % 10 + 1`; in particular file numbers run 1..10 under A, then
1..10 under B, … through Z, and the 261st call wraps back to A with file
number 1. -/
theorem C1_issueNext_sequence (d : String) (idx n : Nat) (h : 1 ≤ n) :
    nthDelivery 'A' d idx (freshState 'A' d) n
      = String.mk [letterOfIdx (((n - 1) / 10) % 26)] ++ d ++ toString idx
          ++ toString ((n - 1) % 10 + 1) := by
  rw [nthDelivery, generate_expected d idx (n - 1)]
  rfl

/-- Concrete instance of C1: the 261st call on a fixed date wraps back to
letter `'A'` with file number 1. -/
theorem C1_issueNext_sequence_witness :
    (1 ≤ 261)
    ∧ nthDelivery 'A' "20250115" 1 (freshState 'A' "20250115") 261
        = String.mk [letterOfIdx (((261 - 1) / 10) % 26)] ++ "20250115"
            ++ toString 1 ++ toString ((261 - 1) % 10 + 1) :=
  ⟨by decide, C1_issueNext_sequence "20250115" 1 261 (by decide)⟩

/-- A contiguous run of pages sharing one color mode
(the group objects of `printPdfWithMixedColorInSequence`). -/
structure PageGroup where
  startIndex : Nat
  endIndex : Nat
  isMonochrome : Bool
deriving Repr, DecidableEq

/-- Normalization of a 1-based page-number list to 0-based indices, clipped
to `[0, totalPages)` (`printer.ts` lines 426-427).  Inputs are `Int`
because the source subtracts 1 before filtering. -/
def normalizeIndices (totalPages : Nat) (pages : List Int) : List Int :=
  (pages.map (fun p => p - 1)).filter
    (fun i => 0 ≤ i && i < (totalPages : Int))

/-- The per-page mode map of `printPdfWithMixedColorInSequence`
(`printer.ts` lines 434-444): color indices win, then bw indices, and
pages in neither default to monochrome.  `true` means monochrome. -/
def pageColorMode (totalPages : Nat) (colorPages bwPages : List Int)
    (i : Nat) : Bool :=
  if (i : Int) ∈ normalizeIndices totalPages colorPages then false
  else if (i : Int) ∈ normalizeIndices totalPages bwPages then true
  else true

/-- One iteration of the grouping loop (`printer.ts` lines 450-465):
extend the current group when the mode matches, otherwise push it and
start a new one. -/
def groupStep (mono : Nat → Bool) (acc : List PageGroup × Option PageGroup)
    (i : Nat) : List PageGroup × Option PageGroup :=
  match acc with
  | (done, none) => (done, some ⟨i, i, mono i⟩)
  | (done, some g) =>
      if g.isMonochrome = mono i then
        (done, some ⟨g.startIndex, i, g.isMonochrome⟩)
      else
        (done ++ [g], some ⟨i, i, mono i⟩)

/-- The grouping loop of `printPdfWithMixedColorInSequence` over pages
`0..totalPages-1`, with the trailing push of the last open group
(`printer.ts` lines 447-470). -/
def buildGroups (mono : Nat → Bool) (totalPages : Nat) : List PageGroup :=
  match (List.range totalPages).foldl (groupStep mono) ([], none) with
  | (done, none) => done
  | (done, some g) => done ++ [g]

/-- The natural-order page groups of a mixed-color job. -/
def pageGroupsOf (totalPages : Nat) (colorPages bwPages : List Int) :
    List PageGroup :=
  buildGroups (pageColorMode totalPages colorPages bwPages) totalPages

/-- The order in which groups are sent to the printer: the source reverses
the natural-order array before the dispatch loop (`printer.ts` line 480). -/
def emissionOrderOf (totalPages : Nat) (colorPages bwPages : List Int) :
    List PageGroup :=
  (pageGroupsOf totalPages colorPages bwPages).reverse

/-- The pages covered by a group, in order. -/
def groupRange (g : PageGroup) : List Nat :=
  List.range' g.startIndex (g.endIndex + 1 - g.startIndex)

/-- Invariant of the grouping loop after scanning pages `0..n-1`: either
nothing was scanned, or the closed groups plus the open group cover
exactly `0..n-1` in order, adjacent modes alternate, and the open group
ends at `n-1` carrying the mode of page `n-1`. -/
lemma foldl_groupStep_invariant (mono : Nat → Bool) : ∀ n : Nat,
    (n = 0 ∧ (List.range n).foldl (groupStep mono) ([], none) = ([], none))
    ∨ (∃ done g,
        (List.range n).foldl (groupStep mono) ([], none) = (done, some g)
        ∧ ((done ++ [g]).map groupRange).flatten = List.range n
        ∧ List.Chain' (fun a b => a.isMonochrome ≠ b.isMonochrome)
            (done ++ [g])
        ∧ g.startIndex ≤ g.endIndex ∧ g.endIndex + 1 = n
        ∧ g.isMonochrome = mono (n - 1)) := by
  intro n
  induction n with
  | zero => exact Or.inl ⟨rfl, rfl⟩
  | succ n ih =>
      rw [List.range_succ, List.foldl_append]
      rcases ih with ⟨hn0, hfold⟩ | ⟨done, g, hfold, hcov, hchain, hse, hend, hmode⟩
      · subst hn0
        rw [hfold]
        refine Or.inr ⟨[], ⟨0, 0, mono 0⟩, rfl, ?_, ?_, ?_, ?_, ?_⟩
        · simp [groupRange]
        · simp
        · simp
        · simp
        · simp
      · rw [hfold]
        by_cases hsame : g.isMonochrome = mono n
        · refine Or.inr ⟨done, ⟨g.startIndex, n, g.isMonochrome⟩, ?_, ?_, ?_, ?_, ?_, ?_⟩
          · simp [groupStep, hsame]
          · have hr : groupRange ⟨g.startIndex, n, g.isMonochrome⟩
                = groupRange g ++ [n] := by
              have h1 : n + 1 - g.startIndex = (n - g.startIndex) + 1 := by omega
              have h2 : g.endIndex + 1 - g.startIndex = n - g.startIndex := by
                omega
              have h3 : g.startIndex + 1 * (n - g.startIndex) = n := by omega
              simp only [groupRange, h1, h2, List.range'_concat, h3]
            rw [List.map_append, List.flatten_append] at hcov ⊢
            simp only [List.map_cons, List.map_nil, List.flatten_cons,
              List.flatten_nil, List.append_nil] at hcov ⊢
            rw [hr, ← List.append_assoc, hcov]
          · rw [List.chain'_append] at hchain ⊢
            refine ⟨hchain.1, by simp, ?_⟩
            intro x hx y hy
            have hxg := hchain.2.2 x hx
            simp only [List.head?_cons, Option.mem_def, Option.some.injEq] at hy
            subst hy
            have := hxg g (by simp)
            simpa using this
          · simp; omega
          · simp
          · simp [hsame]
        · refine Or.inr ⟨done ++ [g], ⟨n, n, mono n⟩, ?_, ?_, ?_, ?_, ?_, ?_⟩
          · simp [groupStep, hsame]
          · have h1 : n + 1 - n = 1 := by omega
            rw [List.map_append, List.flatten_append, hcov]
            simp [groupRange, h1]
          · rw [List.chain'_append]
            refine ⟨hchain, by simp, ?_⟩
            intro x hx y hy
            have hgl : ([g] : List PageGroup).getLast? = some g := rfl
            rw [List.getLast?_append, hgl] at hx
            have hxg : g = x := by simpa using hx
            simp only [List.head?_cons, Option.mem_def, Option.some.injEq] at hy
            subst hxg; subst hy
            simpa using hsame
          · exact Nat.le_refl n
          · rfl
          · simp

/-- Claim C2: for every `totalPages ≥ 1` and any two page-number lists, the
natural-order group list is an ordered partition of pages
`0..totalPages-1` — concatenating the groups' page ranges in order yields
exactly `0..totalPages-1` — adjacent groups never share a color mode
(maximality), and the emission order sent to the printer is the
natural-order list reversed. -/
theorem C2_group_partition (N : Nat) (c b : List Int) (h : 1 ≤ N) :
    ((pageGroupsOf N c b).map groupRange).flatten = List.range N
    ∧ List.Chain' (fun g1 g2 => g1.isMonochrome ≠ g2.isMonochrome)
        (pageGroupsOf N c b)
    ∧ emissionOrderOf N c b = (pageGroupsOf N c b).reverse := by
  rcases foldl_groupStep_invariant (pageColorMode N c b) N with
    ⟨h0, _⟩ | ⟨done, g, hfold, hcov, hchain, _, _, _⟩
  · omega
  · have hb : pageGroupsOf N c b = done ++ [g] := by
      unfold pageGroupsOf buildGroups
      rw [hfold]
    refine ⟨?_, ?_, rfl⟩
    · rw [hb]
      exact hcov
    · rw [hb]
      exact hchain

/-- Concrete instance of C2, on the spec's worked example: a 10-page
document with color pages {2,3,7} groups as
bw 1-1, color 2-3, bw 4-6, color 7-7, bw 8-10 (0-based below), and the
partition invariant holds. -/
theorem C2_group_partition_witness :
    (1 ≤ 10)
    ∧ (((pageGroupsOf 10 [2, 3, 7] []).map groupRange).flatten
          = List.range 10
        ∧ List.Chain' (fun g1 g2 => g1.isMonochrome ≠ g2.isMonochrome)
            (pageGroupsOf 10 [2, 3, 7] [])
        ∧ emissionOrderOf 10 [2, 3, 7] []
            = (pageGroupsOf 10 [2, 3, 7] []).reverse)
    ∧ pageGroupsOf 10 [2, 3, 7] []
        = [⟨0, 0, true⟩, ⟨1, 2, false⟩, ⟨3, 5, true⟩, ⟨6, 6, false⟩,
            ⟨7, 9, true⟩] :=
  ⟨by decide, C2_group_partition 10 [2, 3, 7] [] (by decide), by decide⟩

/-- Claim C3 as stated is false on the code: 1-based page 1 of a 1-page
document (0-based index 0) listed in BOTH `colorPages` and `bwPages` is
classified color (`false`), not monochrome — `colorIndices` is checked
first (`printer.ts` lines 436-437), so color wins a conflict. -/
theorem C3_conflict_counterexample :
    ((0 : Int) ∈ normalizeIndices 1 [1] ∧ (0 : Int) ∈ normalizeIndices 1 [1])
    ∧ pageColorMode 1 [1] [1] 0 = false := by
  decide

/-- Claim C3 amended: a page present in `colorPages` (even if also present
in `bwPages`) is classified color; a page present in neither set is
classified monochrome. -/
theorem C3_amended_conflict_policy (N : Nat) (c b : List Int) (i : Nat) :
    ((i : Int) ∈ normalizeIndices N c → pageColorMode N c b i = false)
    ∧ ((i : Int) ∉ normalizeIndices N c → (i : Int) ∉ normalizeIndices N b →
        pageColorMode N c b i = true) := by
  constructor
  · intro h1
    simp [pageColorMode, h1]
  · intro h1 h2
    simp [pageColorMode, h1, h2]

/-- Concrete instances of the amended C3: a page in both sets prints
color; a page in neither prints monochrome. -/
theorem C3_amended_conflict_policy_witness :
    ((0 : Int) ∈ normalizeIndices 1 [1] ∧ pageColorMode 1 [1] [1] 0 = false)
    ∧ ((0 : Int) ∉ normalizeIndices 2 [] ∧ (0 : Int) ∉ normalizeIndices 2 []
        ∧ pageColorMode 2 [] [] 0 = true) :=
  ⟨⟨by decide, (C3_amended_conflict_policy 1 [1] [1] 0).1 (by decide)⟩,
    ⟨by decide, by decide,
      (C3_amended_conflict_policy 2 [] [] 0).2 (by decide) (by decide)⟩⟩

/-- Claim C4 as stated is false on the code: the date-change reset block
(`deliveryNumber.ts` lines 52-56) does not touch `totalFiles`.  With 5
files already counted and a stale date, the reset leaves `totalFiles` at
5, not 0. -/
theorem C4_reset_counterexample :
    ("20250102" : String) ≠ "20250101"
    ∧ (resetIfDateChanged 'A' "20250102"
        ⟨'C', 7, 7, 5, "20250101"⟩).totalFiles ≠ 0 := by
  constructor
  · decide
  · decide

/-- Claim C4 amended: on a date change the reset block restores the start
letter, zeroes `currentCount` and `currentFileNumber` and stamps the new
date, but PRESERVES `totalFiles`; the issuing call then increments it from
its old value. -/
theorem C4_amended_reset (startLetter : Char) (d : String) (idx : Nat)
    (s : DeliveryNumberState) (h : d ≠ s.lastDate) :
    resetIfDateChanged startLetter d s
        = ⟨startLetter, 0, 0, s.totalFiles, d⟩
    ∧ (generateDeliveryNumber startLetter d idx s).2.totalFiles
        = s.totalFiles + 1 := by
  have h1 : resetIfDateChanged startLetter d s
      = ⟨startLetter, 0, 0, s.totalFiles, d⟩ := by
    simp [resetIfDateChanged, h]
  refine ⟨h1, ?_⟩
  simp only [generateDeliveryNumber, h1]
  split <;> rfl

/-- Concrete instance of the amended C4: a stale state with `totalFiles = 5`
resets everything else, and issuing bumps `totalFiles` to 6. -/
theorem C4_amended_reset_witness :
    (("20250102" : String) ≠ "20250101")
    ∧ (resetIfDateChanged 'A' "20250102" ⟨'C', 7, 7, 5, "20250101"⟩
          = ⟨'A', 0, 0, 5, "20250102"⟩
      ∧ (generateDeliveryNumber 'A' "20250102" 1
          ⟨'C', 7, 7, 5, "20250101"⟩).2.totalFiles = 5 + 1) :=
  ⟨by decide, C4_amended_reset 'A' "20250102" 1
    ⟨'C', 7, 7, 5, "20250101"⟩ (by decide)⟩

/-- `parseInt(lastChar, 10)` on a single character: a decimal digit parses
to its value, anything else gives NaN (`none`). -/
def parseDigit (c : Char) : Option Nat :=
  if '0' ≤ c && c ≤ '9' then some (c.toNat - '0'.toNat) else none

/-- The trailing-digit file-number extraction at the top of `printJob`
(`printer.ts` lines 1536-1549): take the last character of the delivery
number, parse it, and keep the value only if it lies in 1..10, defaulting
to 1 otherwise; with no delivery number at all, fall back to the live
`getCurrentFileNumber` value (the `fallback` argument). -/
def extractFileNumber (deliveryNumber : String) (fallback : Nat) : Nat :=
  match deliveryNumber.data.getLast? with
  | none => fallback
  | some c =>
      match parseDigit c with
      | some k => if 1 ≤ k && k ≤ 10 then k else 1
      | none => 1

/-- Extraction only looks at the last character, so a non-empty suffix
determines the result. -/
lemma extractFileNumber_append (p q : String) (fb fb' : Nat)
    (h : q.data ≠ []) :
    extractFileNumber (p ++ q) fb = extractFileNumber q fb' := by
  unfold extractFileNumber
  rw [String.data_append, List.getLast?_append]
  cases hq : q.data.getLast? with
  | none => exact absurd (List.getLast?_eq_none.mp hq) h
  | some c => rfl

/-- Claim C5 as stated is false on the code: the 10th issued delivery
number has file-number-within-letter 10, but its trailing digit is `'0'`,
which fails the `1 ≤ parsed` validation in `printJob`, so the executor
re-derives file number 1, not 10. -/
theorem C5_roundtrip_counterexample :
    (stateAfter 'A' "20250115" 1 (freshState 'A' "20250115") 10).currentFileNumber
        = 10
    ∧ extractFileNumber
        (nthDelivery 'A' "20250115" 1 (freshState 'A' "20250115") 10) 0 = 1 := by
  constructor
  · decide
  · decide

/-- Claim C5 amended: parsing the trailing digit of the issued delivery
number recovers the file-number-within-letter exactly when it is 1..9
(calls with `(n-1) % 10 ≠ 9`); for file number 10 the trailing digit is
`'0'`, the 1..10 validation rejects it, and the executor falls back to the
default 1. -/
theorem C5_amended_roundtrip (d : String) (idx n fb : Nat) (h : 1 ≤ n) :
    extractFileNumber (nthDelivery 'A' d idx (freshState 'A' d) n) fb
      = if (n - 1) % 10 = 9 then 1 else (n - 1) % 10 + 1 := by
  rw [nthDelivery, generate_expected]
  show extractFileNumber (expectedDelivery d idx (n - 1)) fb = _
  unfold expectedDelivery
  have hr : (n - 1) % 10 < 10 := by omega
  revert hr
  generalize (n - 1) % 10 = r
  intro hr
  interval_cases r <;>
    · rw [extractFileNumber_append _ _ fb fb (by decide)]
      rfl

/-- Concrete instance of the amended C5: the 7th call's number parses back
to 7, the 10th call's number parses back to 1. -/
theorem C5_amended_roundtrip_witness :
    ((1 : Nat) ≤ 7 ∧ (1 : Nat) ≤ 10)
    ∧ (extractFileNumber
        (nthDelivery 'A' "20250115" 1 (freshState 'A' "20250115") 7) 0
        = if (7 - 1) % 10 = 9 then 1 else (7 - 1) % 10 + 1)
    ∧ (extractFileNumber
        (nthDelivery 'A' "20250115" 1 (freshState 'A' "20250115") 10) 0
        = if (10 - 1) % 10 = 9 then 1 else (10 - 1) % 10 + 1) :=
  ⟨⟨by decide, by decide⟩,
    C5_amended_roundtrip "20250115" 1 7 0 (by decide),
    C5_amended_roundtrip "20250115" 1 10 0 (by decide)⟩

/-- Claim C7 as stated is false on the code: on one calendar date with one
printer index, the 1st and the 261st calls are distinct calls but return
the identical delivery number (the 260-slot cycle wraps within the day). -/
theorem C7_uniqueness_counterexample :
    (1 : Nat) ≠ 261
    ∧ nthDelivery 'A' "20250115" 1 (freshState 'A' "20250115") 1
        = nthDelivery 'A' "20250115" 1 (freshState 'A' "20250115") 261 := by
  refine ⟨by decide, ?_⟩
  rw [nthDelivery, nthDelivery, generate_expected, generate_expected]
  rfl

lemma letterOfIdx_inj_fin : ∀ a b : Fin 26,
    letterOfIdx a.val = letterOfIdx b.val → a = b := by
  decide

lemma toString_succ_inj_fin : ∀ a b : Fin 10,
    toString (a.val + 1) = toString (b.val + 1) → a = b := by
  decide

/-- Claim C7 amended: delivery numbers are unique among the first 260
calls of a day — any two distinct calls with 1-based indices in 1..260 on
the same date with the same printer index return different strings.  (The
261st call repeats the 1st, as the counterexample shows.) -/
theorem C7_amended_uniqueness (d : String) (idx m n : Nat)
    (hm1 : 1 ≤ m) (hm2 : m ≤ 260) (hn1 : 1 ≤ n) (hn2 : n ≤ 260)
    (hmn : m ≠ n) :
    nthDelivery 'A' d idx (freshState 'A' d) m
      ≠ nthDelivery 'A' d idx (freshState 'A' d) n := by
  intro heq
  rw [nthDelivery, nthDelivery, generate_expected, generate_expected] at heq
  have heq' : expectedDelivery d idx (m - 1) = expectedDelivery d idx (n - 1) :=
    heq
  unfold expectedDelivery at heq'
  have hdata := congrArg String.data heq'
  simp only [String.data_append, List.append_assoc, List.cons_append,
    List.nil_append] at hdata
  injection hdata with hL htail
  have htail2 := List.append_cancel_left htail
  have htail3 := List.append_cancel_left htail2
  have hF : toString ((m - 1) % 10 + 1) = toString ((n - 1) % 10 + 1) := by
    have h1 : (toString ((m - 1) % 10 + 1)).data
        = (toString ((n - 1) % 10 + 1)).data := htail3
    cases hx : toString ((m - 1) % 10 + 1)
    cases hy : toString ((n - 1) % 10 + 1)
    rw [hx, hy] at h1
    exact congrArg String.mk h1
  have hdivlt_m : (m - 1) / 10 < 26 := by omega
  have hdivlt_n : (n - 1) / 10 < 26 := by omega
  have hLidx : letterOfIdx (((m - 1) / 10) % 26)
      = letterOfIdx (((n - 1) / 10) % 26) := hL
  rw [Nat.mod_eq_of_lt hdivlt_m, Nat.mod_eq_of_lt hdivlt_n] at hLidx
  have hdiv := letterOfIdx_inj_fin ⟨(m - 1) / 10, hdivlt_m⟩
    ⟨(n - 1) / 10, hdivlt_n⟩ hLidx
  have hmod := toString_succ_inj_fin ⟨(m - 1) % 10, by omega⟩
    ⟨(n - 1) % 10, by omega⟩ hF
  have hdiv' : (m - 1) / 10 = (n - 1) / 10 := congrArg Fin.val hdiv
  have hmod' : (m - 1) % 10 = (n - 1) % 10 := congrArg Fin.val hmod
  omega

/-- Concrete instance of the amended C7: calls 1 and 2 of the same day give
different delivery numbers. -/
theorem C7_amended_uniqueness_witness :
    ((1 : Nat) ≤ 1 ∧ (1 : Nat) ≤ 260 ∧ (1 : Nat) ≤ 2 ∧ (2 : Nat) ≤ 260
      ∧ (1 : Nat) ≠ 2)
    ∧ nthDelivery 'A' "20250115" 1 (freshState 'A' "20250115") 1
        ≠ nthDelivery 'A' "20250115" 1 (freshState 'A' "20250115") 2 :=
  ⟨by decide, C7_amended_uniqueness "20250115" 1 1 2 (by decide) (by decide)
    (by decide) (by decide) (by decide)⟩

/-- The job payload fields of `PrintJob` (`printer.ts`) that the verified
logic reads.  `deliveryNumber` is `none` when the field is absent. -/
structure PrintJob where
  fileUrl : String
  fileName : String
  deliveryNumber : Option String
deriving Repr, DecidableEq

/-- A separator page dispatched by `printJob` before the job's content:
either the full-page letter separator or the file-number separator. -/
inductive SeparatorEvent where
  | letterSep (letter : Char)
  | fileNumberSep (n : Nat)
deriving Repr, DecidableEq

def SeparatorEvent.isLetterSep : SeparatorEvent → Bool
  | SeparatorEvent.letterSep _ => true
  | SeparatorEvent.fileNumberSep _ => false

def SeparatorEvent.isFileNumberSep : SeparatorEvent → Bool
  | SeparatorEvent.letterSep _ => false
  | SeparatorEvent.fileNumberSep _ => true

/-- `separatorKey = job.deliveryNumber || job.fileUrl` (`printer.ts` line
1565); JavaScript `||` falls through on an absent value and on the empty
string. -/
def separatorKey (job : PrintJob) : String :=
  match job.deliveryNumber with
  | some dn => if dn = "" then job.fileUrl else dn
  | none => job.fileUrl

/-- The separator phase of `printJob` (`printer.ts` lines 1536-1580):
derive the file number from the delivery number's trailing digit (falling
back to the live `getCurrentFileNumber`), print the letter separator
whenever the live `shouldPrintLetterSeparator()` check passes, and print
the file-number separator only when `separatorKey` is not yet in the
`printedFileNumberSeparators` set, recording it afterwards.  Returns the
dispatched separator pages and the updated set. -/
def printJobSeparators (job : PrintJob) (ds : DeliveryNumberState)
    (printed : List String) : List SeparatorEvent × List String :=
  let fileNumber := extractFileNumber (job.deliveryNumber.getD "")
      (getCurrentFileNumber ds)
  let letterEvents :=
    if shouldPrintLetterSeparator ds then
      [SeparatorEvent.letterSep (getCurrentLetter ds)]
    else []
  let key := separatorKey job
  if key ∈ printed then (letterEvents, printed)
  else (letterEvents ++ [SeparatorEvent.fileNumberSep fileNumber],
        printed ++ [key])

lemma printJobSeparators_mem (job : PrintJob) (ds : DeliveryNumberState)
    (printed : List String) (h : separatorKey job ∈ printed) :
    printJobSeparators job ds printed =
      ((if shouldPrintLetterSeparator ds then
          [SeparatorEvent.letterSep (getCurrentLetter ds)]
        else []), printed) := by
  simp [printJobSeparators, h]

lemma printJobSeparators_not_mem (job : PrintJob) (ds : DeliveryNumberState)
    (printed : List String) (h : separatorKey job ∉ printed) :
    printJobSeparators job ds printed =
      ((if shouldPrintLetterSeparator ds then
          [SeparatorEvent.letterSep (getCurrentLetter ds)]
        else [])
        ++ [SeparatorEvent.fileNumberSep
              (extractFileNumber (job.deliveryNumber.getD "")
                (getCurrentFileNumber ds))],
        printed ++ [separatorKey job]) := by
  simp [printJobSeparators, h]

/-- Claim C6 as stated is false on the code: the letter separator is
guarded only by the live `shouldPrintLetterSeparator()` check — the
idempotency set guards the FILE-NUMBER separator alone (`printer.ts`
lines 1552-1561 vs 1564-1580).  After the first delivery number of a day
is issued, two attempts of that same job dispatch the full-page letter
separator twice. -/
theorem C6_letter_separator_counterexample :
    shouldPrintLetterSeparator ⟨'A', 1, 1, 1, "20250115"⟩ = true
    ∧ ((printJobSeparators ⟨"http://u/f.pdf", "f.pdf", some "A2025011511"⟩
          ⟨'A', 1, 1, 1, "20250115"⟩ []).1
        ++ (printJobSeparators ⟨"http://u/f.pdf", "f.pdf", some "A2025011511"⟩
            ⟨'A', 1, 1, 1, "20250115"⟩
            (printJobSeparators ⟨"http://u/f.pdf", "f.pdf", some "A2025011511"⟩
              ⟨'A', 1, 1, 1, "20250115"⟩ []).2).1).countP
          SeparatorEvent.isLetterSep = 2 := by
  constructor
  · decide
  · decide

lemma countP_letterEvents (b : Bool) (c : Char) :
    (if b then [SeparatorEvent.letterSep c] else []).countP
      SeparatorEvent.isFileNumberSep = 0 := by
  cases b <;> simp [SeparatorEvent.isFileNumberSep]

/-- Claim C6 amended: the idempotency set keyed by the delivery number (or
file URL) makes the FILE-NUMBER separator print at most once across two
consecutive attempts of the same job, whatever the delivery state at each
attempt; the letter separator has no such guard and reprints whenever the
live check passes. -/
theorem C6_amended_idempotency (job : PrintJob)
    (ds ds' : DeliveryNumberState) (printed : List String) :
    (printJobSeparators job ds printed).1.countP
        SeparatorEvent.isFileNumberSep
      + (printJobSeparators job ds'
          (printJobSeparators job ds printed).2).1.countP
            SeparatorEvent.isFileNumberSep ≤ 1 := by
  by_cases h : separatorKey job ∈ printed
  · rw [printJobSeparators_mem job ds printed h,
      printJobSeparators_mem job ds' printed h]
    simp [countP_letterEvents]
  · rw [printJobSeparators_not_mem job ds printed h]
    have h2 : separatorKey job ∈ printed ++ [separatorKey job] := by simp
    rw [printJobSeparators_mem job ds' (printed ++ [separatorKey job]) h2]
    simp [countP_letterEvents, SeparatorEvent.isFileNumberSep,
      List.countP_append]

/-- A queued job (`QueuedJob` in `queue.ts`), without the wall-clock
timestamps (`createdAt`, `lastAttemptAt`), which no verified property
reads. -/
structure QueuedJob where
  id : String
  job : PrintJob
  printerIndex : Nat
  attempts : Nat
deriving Repr, DecidableEq

/-- Outcome of one `printJob` execution as observed by the queue loop: a
success result, a failure result (`result.success === false`), or a
thrown error. -/
inductive ExecResult where
  | success
  | failure (msg : String)
  | thrown (msg : String)
deriving Repr, DecidableEq

def ExecResult.isFailure : ExecResult → Bool
  | ExecResult.success => false
  | ExecResult.failure _ => true
  | ExecResult.thrown _ => true

/-- Substring test, the model of `String.prototype.includes`. -/
def containsSub (s pat : String) : Bool :=
  decide (pat.data <:+: s.data)

/-- The backoff-tier classification of `processQueue` (`queue.ts` lines
125-129 and 151-155): printer-connectivity failures (message containing
"printer not connected", "printer is offline" or "powered off" after
lowercasing) get the 30000 ms base, everything else the 10000 ms base. -/
def classifyBaseWait (msg : String) : Nat :=
  if containsSub msg.toLower "printer not connected"
      || containsSub msg.toLower "printer is offline"
      || containsSub msg.toLower "powered off" then 30000
  else 10000

/-- `Math.min(queuedJob.attempts * baseWaitTime, 300000)` (`queue.ts`
lines 130 and 156). -/
def backoffWait (attempts baseWait : Nat) : Nat :=
  min (attempts * baseWait) 300000

/-- The lazy delivery-number assignment at the top of the queue loop's try
block (`queue.ts` lines 96-98): JavaScript's `!job.deliveryNumber` is true
for an absent field and for the empty string. -/
def assignDeliveryNumber (startLetter : Char) (d : String)
    (qj : QueuedJob) (ds : DeliveryNumberState) :
    QueuedJob × DeliveryNumberState :=
  match qj.job.deliveryNumber with
  | none =>
      let gen := generateDeliveryNumber startLetter d qj.printerIndex ds
      ({ qj with job := { qj.job with deliveryNumber := some gen.1 } }, gen.2)
  | some dn =>
      if dn = "" then
        let gen := generateDeliveryNumber startLetter d qj.printerIndex ds
        ({ qj with job := { qj.job with deliveryNumber := some gen.1 } },
          gen.2)
      else (qj, ds)

/-- One iteration of the `processQueue` while-loop (`queue.ts` lines
87-158), with the `printJob` outcome supplied as an oracle: bump
`attempts`, lazily assign a delivery number, then on success shift the
head off the queue, and on a failure result or a thrown error keep the
head in place and compute the classified backoff wait.  Returns the new
queue, the new delivery-number state and the wait in milliseconds (0 on
success). -/
def processIteration (startLetter : Char) (d : String)
    (q : List QueuedJob) (ds : DeliveryNumberState) (res : ExecResult) :
    List QueuedJob × DeliveryNumberState × Nat :=
  match q with
  | [] => ([], ds, 0)
  | qj :: rest =>
      let a := assignDeliveryNumber startLetter d
          { qj with attempts := qj.attempts + 1 } ds
      match res with
      | ExecResult.success => (rest, a.2, 0)
      | ExecResult.failure msg =>
          (a.1 :: rest, a.2, backoffWait a.1.attempts (classifyBaseWait msg))
      | ExecResult.thrown msg =>
          (a.1 :: rest, a.2, backoffWait a.1.attempts (classifyBaseWait msg))

/-- The queue loop run over a list of per-iteration outcomes. -/
def runIterations (startLetter : Char) (d : String) :
    List QueuedJob × DeliveryNumberState → List ExecResult →
    List QueuedJob × DeliveryNumberState
  | (q, ds), [] => (q, ds)
  | (q, ds), r :: rs =>
      let step := processIteration startLetter d q ds r
      runIterations startLetter d (step.1, step.2.1) rs

/-- The assignment step never touches id, printerIndex or attempts. -/
lemma assignDeliveryNumber_fields (startLetter : Char) (d : String)
    (qj : QueuedJob) (ds : DeliveryNumberState) :
    (assignDeliveryNumber startLetter d qj ds).1.id = qj.id
    ∧ (assignDeliveryNumber startLetter d qj ds).1.printerIndex
        = qj.printerIndex
    ∧ (assignDeliveryNumber startLetter d qj ds).1.attempts = qj.attempts := by
  cases hdn : qj.job.deliveryNumber with
  | none => simp [assignDeliveryNumber, hdn]
  | some dn =>
      by_cases he : dn = ""
      · simp [assignDeliveryNumber, hdn, he]
      · simp [assignDeliveryNumber, hdn, he]

/-- A failing iteration keeps the head job at position 0 with the tail
unchanged, incrementing its `attempts` by exactly 1. -/
lemma processIteration_failing (startLetter : Char) (d : String)
    (j : QueuedJob) (rest : List QueuedJob) (ds : DeliveryNumberState)
    (r : ExecResult) (h : r.isFailure = true) :
    ∃ j2 ds2 w,
      processIteration startLetter d (j :: rest) ds r = (j2 :: rest, ds2, w)
      ∧ j2.id = j.id ∧ j2.printerIndex = j.printerIndex
      ∧ j2.attempts = j.attempts + 1 := by
  have hf := assignDeliveryNumber_fields startLetter d
    { j with attempts := j.attempts + 1 } ds
  cases r with
  | success => simp [ExecResult.isFailure] at h
  | failure msg =>
      exact ⟨_, _, _, rfl, hf.1, hf.2.1, hf.2.2⟩
  | thrown msg =>
      exact ⟨_, _, _, rfl, hf.1, hf.2.1, hf.2.2⟩

/-- Claim C8: over any run of consecutive iterations in which every
execution of the head job fails (failure result or thrown error), the
head job stays at queue position 0 with the rest of the queue untouched,
and its `attempts` counter increases by exactly 1 per iteration — after
`k` failing iterations it has gained exactly `k`. -/
theorem C8_failing_head_stays (startLetter : Char) (d : String)
    (j : QueuedJob) (rest : List QueuedJob) (ds : DeliveryNumberState)
    (rs : List ExecResult) (hfail : ∀ r ∈ rs, r.isFailure = true) :
    ∃ j2 : QueuedJob,
      (runIterations startLetter d (j :: rest, ds) rs).1 = j2 :: rest
      ∧ j2.id = j.id ∧ j2.printerIndex = j.printerIndex
      ∧ j2.attempts = j.attempts + rs.length := by
  induction rs generalizing j ds with
  | nil => exact ⟨j, rfl, rfl, rfl, rfl⟩
  | cons r rs ih =>
      obtain ⟨j2, ds2, w, hstep, hid, hpi, hat⟩ :=
        processIteration_failing startLetter d j rest ds r
          (hfail r (by simp))
      have hrun : runIterations startLetter d (j :: rest, ds) (r :: rs)
          = runIterations startLetter d (j2 :: rest, ds2) rs := by
        simp [runIterations, hstep]
      obtain ⟨j3, hq, hid3, hpi3, hat3⟩ :=
        ih j2 ds2 (fun r' hr' => hfail r' (by simp [hr']))
      refine ⟨j3, ?_, ?_, ?_, ?_⟩
      · rw [hrun, hq]
      · rw [hid3, hid]
      · rw [hpi3, hpi]
      · rw [hat3, hat]
        simp [List.length_cons]
        omega

/-- Concrete instance of C8: a job failing twice (one failure result, one
thrown connectivity error) is still at position 0 with attempts 0 + 2. -/
theorem C8_failing_head_stays_witness :
    (∀ r ∈ [ExecResult.failure "x", ExecResult.thrown "printer is offline"],
        r.isFailure = true)
    ∧ ∃ j2 : QueuedJob,
        (runIterations 'A' "20250115"
          ([⟨"job1", ⟨"http://u", "f.pdf", some "A2025011511"⟩, 1, 0⟩],
            freshState 'A' "20250115")
          [ExecResult.failure "x",
            ExecResult.thrown "printer is offline"]).1 = j2 :: []
        ∧ j2.id = "job1" ∧ j2.printerIndex = 1 ∧ j2.attempts = 0 + 2 :=
  ⟨by decide,
    C8_failing_head_stays 'A' "20250115"
      ⟨"job1", ⟨"http://u", "f.pdf", some "A2025011511"⟩, 1, 0⟩ []
      (freshState 'A' "20250115")
      [ExecResult.failure "x", ExecResult.thrown "printer is offline"]
      (by decide)⟩

/-- Claim C9: for both classification paths (10000 ms generic base,
30000 ms printer-connectivity base), the backoff wait
`min(attempts * base, 300000)` is monotonically non-decreasing in the
attempts counter and never exceeds the 5-minute cap, for every attempts
value ≥ 1. -/
theorem C9_backoff_monotone_capped (msg : String) (a1 a2 : Nat)
    (h1 : 1 ≤ a1) (h2 : a1 ≤ a2) :
    backoffWait a1 (classifyBaseWait msg)
        ≤ backoffWait a2 (classifyBaseWait msg)
    ∧ backoffWait a1 (classifyBaseWait msg) ≤ 300000
    ∧ (classifyBaseWait msg = 10000 ∨ classifyBaseWait msg = 30000) := by
  refine ⟨?_, ?_, ?_⟩
  · unfold backoffWait
    exact min_le_min (Nat.mul_le_mul_right _ h2) (Nat.le_refl _)
  · exact Nat.min_le_right _ _
  · unfold classifyBaseWait
    split
    · exact Or.inr rfl
    · exact Or.inl rfl

/-- Concrete instance of C9, on the long-base path: attempts 1 vs 5 with a
"Printer is offline" message. -/
theorem C9_backoff_monotone_capped_witness :
    ((1 : Nat) ≤ 1 ∧ (1 : Nat) ≤ 5)
    ∧ (backoffWait 1 (classifyBaseWait "Printer is offline: HP")
          ≤ backoffWait 5 (classifyBaseWait "Printer is offline: HP")
      ∧ backoffWait 1 (classifyBaseWait "Printer is offline: HP") ≤ 300000
      ∧ (classifyBaseWait "Printer is offline: HP" = 10000
          ∨ classifyBaseWait "Printer is offline: HP" = 30000)) :=
  ⟨⟨by decide, by decide⟩,
    C9_backoff_monotone_capped "Printer is offline: HP" 1 5 (by decide)
      (by decide)⟩

/-- One file of a POST /api/print submission (`fileURLs[i]` paired with
`originalFileNames[i]`; the legacy single-file shape is the singleton
case). -/
structure SubmittedFile where
  fileUrl : String
  fileName : String
deriving Repr, DecidableEq

/-- `addToQueue` (`queue.ts` lines 54-74) without the generated id and
timestamp: append a QueuedJob with `attempts = 0` at the tail. -/
def addToQueue (id : String) (job : PrintJob) (printerIndex : Nat)
    (q : List QueuedJob) : List QueuedJob :=
  q ++ [⟨id, job, printerIndex, 0⟩]

/-- The per-file enqueue loop of the POST /api/print route (`print.ts`
lines 51-79; the legacy single-file branch, lines 92-117, is the
one-element case): for each submitted file, generate a delivery number
first and enqueue the job carrying it. -/
def enqueueRoute (startLetter : Char) (d : String) (printerIndex : Nat)
    (files : List SubmittedFile) (q : List QueuedJob)
    (ds : DeliveryNumberState) : List QueuedJob × DeliveryNumberState :=
  match files with
  | [] => (q, ds)
  | f :: fs =>
      let gen := generateDeliveryNumber startLetter d printerIndex ds
      enqueueRoute startLetter d printerIndex fs
        (addToQueue "" ⟨f.fileUrl, f.fileName, some gen.1⟩ printerIndex q)
        gen.2

/-- A generated delivery number is never the empty string (it starts with
the current letter). -/
lemma generate_fst_ne_empty (startLetter : Char) (d : String) (idx : Nat)
    (s : DeliveryNumberState) :
    (generateDeliveryNumber startLetter d idx s).1 ≠ "" := by
  simp only [generateDeliveryNumber]
  intro h
  have h1 := congrArg String.data h
  simp only [String.data_append] at h1
  exact absurd h1 (by simp)

/-- On a head job whose delivery number is present and non-empty, the
queue loop's lazy-issuance branch is not taken: the delivery state passes
through an iteration unchanged. -/
lemma processIteration_preserves_state (startLetter : Char) (d : String)
    (j : QueuedJob) (rest : List QueuedJob) (ds : DeliveryNumberState)
    (res : ExecResult) (s : String) (hdn : j.job.deliveryNumber = some s)
    (hne : s ≠ "") :
    (processIteration startLetter d (j :: rest) ds res).2.1 = ds := by
  have ha : assignDeliveryNumber startLetter d
      { j with attempts := j.attempts + 1 } ds
      = ({ j with attempts := j.attempts + 1 }, ds) := by
    simp [assignDeliveryNumber, hdn, hne]
  cases res <;> simp [processIteration, ha]

/-- Claim C10: every job enqueued through the HTTP print route enters the
queue with a delivery number already assigned (issued at enqueue time, in
submission order, one per file, never empty), so the queue loop's lazy
issuance branch is never taken for such jobs — an iteration processing
one of them leaves the delivery-number state untouched. -/
theorem C10_route_assigns_delivery (startLetter : Char) (d : String)
    (idx : Nat) (files : List SubmittedFile) (q : List QueuedJob)
    (ds : DeliveryNumberState) :
    ∃ newJobs : List QueuedJob,
      (enqueueRoute startLetter d idx files q ds).1 = q ++ newJobs
      ∧ newJobs.length = files.length
      ∧ ∀ j ∈ newJobs,
          (∃ s : String, j.job.deliveryNumber = some s ∧ s ≠ "")
          ∧ ∀ (rest : List QueuedJob) (ds' : DeliveryNumberState)
              (res : ExecResult),
              (processIteration startLetter d (j :: rest) ds' res).2.1
                = ds' := by
  induction files generalizing q ds with
  | nil => exact ⟨[], by simp [enqueueRoute], rfl, by simp⟩
  | cons f fs ih =>
      obtain ⟨newJobs, happ, hlen, hprop⟩ :=
        ih (addToQueue ""
          ⟨f.fileUrl, f.fileName,
            some (generateDeliveryNumber startLetter d idx ds).1⟩ idx q)
          (generateDeliveryNumber startLetter d idx ds).2
      refine ⟨⟨"", ⟨f.fileUrl, f.fileName,
          some (generateDeliveryNumber startLetter d idx ds).1⟩, idx, 0⟩
            :: newJobs, ?_, ?_, ?_⟩
      · rw [show enqueueRoute startLetter d idx (f :: fs) q ds
            = enqueueRoute startLetter d idx fs
                (addToQueue ""
                  ⟨f.fileUrl, f.fileName,
                    some (generateDeliveryNumber startLetter d idx ds).1⟩
                  idx q)
                (generateDeliveryNumber startLetter d idx ds).2 from rfl,
          happ, addToQueue]
        simp
      · simp [hlen]
      · intro j hj
        rcases List.mem_cons.mp hj with hj1 | hj2
        · subst hj1
          refine ⟨⟨(generateDeliveryNumber startLetter d idx ds).1, rfl,
            generate_fst_ne_empty startLetter d idx ds⟩, ?_⟩
          intro rest ds' res
          exact processIteration_preserves_state startLetter d _ rest ds' res
            (generateDeliveryNumber startLetter d idx ds).1 rfl
            (generate_fst_ne_empty startLetter d idx ds)
        · exact hprop j hj2

/-- Concrete instance of C10: a two-file submission enqueues two jobs,
each with a non-empty delivery number, and processing either never issues
a number. -/
theorem C10_route_assigns_delivery_witness :
    ∃ newJobs : List QueuedJob,
      (enqueueRoute 'A' "20250115" 1
          [⟨"http://u/a.pdf", "a.pdf"⟩, ⟨"http://u/b.pdf", "b.pdf"⟩] []
          (freshState 'A' "20250115")).1 = [] ++ newJobs
      ∧ newJobs.length
          = ([⟨"http://u/a.pdf", "a.pdf"⟩,
              ⟨"http://u/b.pdf", "b.pdf"⟩] : List SubmittedFile).length
      ∧ ∀ j ∈ newJobs,
          (∃ s : String, j.job.deliveryNumber = some s ∧ s ≠ "")
          ∧ ∀ (rest : List QueuedJob) (ds' : DeliveryNumberState)
              (res : ExecResult),
              (processIteration 'A' "20250115" (j :: rest) ds' res).2.1
                = ds' :=
  C10_route_assigns_delivery 'A' "20250115" 1
    [⟨"http://u/a.pdf", "a.pdf"⟩, ⟨"http://u/b.pdf", "b.pdf"⟩] []
    (freshState 'A' "20250115")
